import Mathlib

/-!
# Verification of the build-recommendation pipeline

A shallow embedding of the request/normalization pipeline of the
`cntbuildv3` repository: the client-side `fetchWithRetry` helpers and
response normalizer from `src/services/openaiApi.ts`, the server-side
`POST /api/build-recommendation` handler from `server.js` (validation,
cache key, TTL cache, error-to-HTTP mapping), and the `getSuccessRate`
computation from `src/hooks/useBuildFeedback.ts`.

JavaScript values flowing through the untyped parts of the pipeline are
modelled by the inductive `JsVal`; JavaScript exceptions are modelled by
`Except String`.  Network I/O (`fetch`, the OpenAI completion call) is
abstracted by per-attempt outcome oracles, and `JSON.parse` of an
abstract body is represented by the `Option JsVal` outcome of the parse.
-/

namespace CntBuild

/-- A JavaScript runtime value, as far as the pipeline inspects them:
`undefined`, `null`, strings, (integer) numbers, booleans, arrays and
plain objects (association lists of fields; keys are unique in every
object the pipeline builds, and lookup takes the first match). -/
inductive JsVal where
  | undefined : JsVal
  | null : JsVal
  | str (s : String) : JsVal
  | num (n : Int) : JsVal
  | bool (b : Bool) : JsVal
  | arr (xs : List JsVal) : JsVal
  | obj (fields : List (String × JsVal)) : JsVal

namespace JsVal

/-- Is the value `undefined` or `null`?  Property access on such a value
throws a `TypeError` in JavaScript. -/
def isNullish : JsVal → Bool
  | undefined => true
  | null => true
  | _ => false

/-- JavaScript truthiness: `undefined`, `null`, `false`, `0` and `""` are
falsy, everything else (including every array and object) is truthy. -/
def truthy : JsVal → Bool
  | undefined => false
  | null => false
  | bool b => b
  | num n => n != 0
  | str s => s != ""
  | arr _ => true
  | obj _ => true

/-- Property read `v.k` on a value already known to be non-nullish:
an object yields the field (or `undefined` when absent), a primitive or
array yields `undefined` (none of the properties the pipeline reads exist
on those). -/
def prop : JsVal → String → JsVal
  | obj fields, k =>
    match fields.find? (fun f => f.1 = k) with
    | some f => f.2
    | none => undefined
  | _, _ => undefined

/-- Optional chaining `v?.k`: `undefined` when `v` is nullish, otherwise
the property read. -/
def optProp (v : JsVal) (k : String) : JsVal :=
  if v.isNullish then undefined else v.prop k

end JsVal

mutual

/-- JavaScript string conversion `String(v)` / template-literal
interpolation, for the shapes the pipeline converts. -/
def jsString : JsVal → String
  | .undefined => "undefined"
  | .null => "null"
  | .str s => s
  | .num n => toString n
  | .bool b => if b then "true" else "false"
  | .arr xs => jsStringList xs
  | .obj _ => "[object Object]"

/-- JavaScript `Array.prototype.toString`: elements joined with `,`. -/
def jsStringList : List JsVal → String
  | [] => ""
  | [x] => jsString x
  | x :: y :: ys => jsString x ++ "," ++ jsStringList (y :: ys)

end

/-- JavaScript `a || b`: `a` when truthy, otherwise `b`. -/
def jsOr (a b : JsVal) : JsVal :=
  if a.truthy then a else b

/-- Is the first character list a prefix of the second? -/
def charsLeadWith : List Char → List Char → Bool
  | [], _ => true
  | _ :: _, [] => false
  | a :: as, b :: bs => a = b && charsLeadWith as bs

/-- Does the second character list contain the first as a contiguous
sublist? -/
def charsContain (sub : List Char) : List Char → Bool
  | [] => charsLeadWith sub []
  | c :: cs => charsLeadWith sub (c :: cs) || charsContain sub cs

/-- JavaScript `String.prototype.includes`: substring containment (the empty string
is contained in every string). -/
def jsIncludes (s sub : String) : Bool :=
  charsContain sub.data s.data

/-- JavaScript `String.prototype.toLowerCase`, restricted to the ASCII lowering that
`String.toLower` performs. -/
def jsToLower (s : String) : String := s.toLower

/-- JavaScript `s.replace(/\s+/g, '-')`: every maximal run of whitespace becomes a
single `-`. -/
def jsReplaceWsRuns (s : String) : String :=
  (s.data.foldl
    (fun (acc : String × Bool) c =>
      if c.isWhitespace then
        (if acc.2 then acc.1 else acc.1 ++ "-", true)
      else
        (acc.1.push c, false))
    ("", false)).1

/-- A `Champion` as the client passes it around (`src/types.ts`): identity,
display name and optional role. -/
structure ClientChampion where
  id : String
  name : String
  role : Option String
deriving Repr, DecidableEq

/-- The item records `transformItemsData` produces (`openaiApi.ts` lines
46-55).  Fields that copy untyped response data stay `JsVal`; the image
URL is always a synthesized string. -/
structure NormItem where
  id : JsVal
  name : JsVal
  imageUrl : String
  description : JsVal
  gold : JsVal
  stats : JsVal
  tags : JsVal
  mythic : JsVal

/-- The rune records `transformRunesData` produces (`openaiApi.ts` lines
62-97). -/
structure NormRune where
  id : JsVal
  name : JsVal
  imageUrl : String
  description : JsVal

/-- One entry of `itemsData.map(...)` in `transformItemsData`
(`openaiApi.ts` lines 46-55).  `rnd` stands for the random id suffix
`Math.random().toString(36).substr(2, 9)` drawn for this entry.  Property
access on a nullish entry throws, and `item.name.toLowerCase()` throws
whenever `item.mythic` is falsy and `item.name` is not a string. -/
def transformItem (rnd : String) (item : JsVal) : Except String NormItem := do
  if item.isNullish then
    throw "TypeError: Cannot read properties of null or undefined"
  let id := jsOr (item.prop "id")
    (jsOr (.str (jsString (item.prop "item_id"))) (.str ("item-" ++ rnd)))
  let name := item.prop "name"
  let imageUrl :=
    "/assets/items/" ++ jsString (jsOr (item.prop "id") (item.prop "item_id")) ++ ".webp"
  let description :=
    jsOr (item.prop "description")
      (jsOr ((item.prop "reasoning").optProp "core_benefit") (.str ""))
  let mythic ←
    if (item.prop "mythic").truthy then
      pure (item.prop "mythic")
    else
      match name with
      | .str s => pure (JsVal.bool (jsIncludes (jsToLower s) "mythic"))
      | _ => throw "TypeError: item.name.toLowerCase is not a function"
  pure
    { id := id, name := name, imageUrl := imageUrl, description := description,
      gold := item.prop "gold", stats := item.prop "stats",
      tags := item.prop "tags", mythic := mythic }

/-- Function `transformItemsData` (`openaiApi.ts` lines 43-56): a non-array input
yields `[]`, an array is mapped entrywise by `transformItem`. -/
def transformItemsData (rnd : Nat → String) (itemsData : JsVal) :
    Except String (List NormItem) :=
  match itemsData with
  | .arr xs => xs.enum.mapM (fun p => transformItem (rnd p.1) p.2)
  | _ => .ok []

/-- One rune entry built from a slot name (`openaiApi.ts` lines 76-82 and
87-94): throws when the slot value is not a string
(`rune.toLowerCase()`). -/
def transformSlotRune (idKind : String) (rnd : String) (descr : String)
    (rune : JsVal) : Except String NormRune :=
  match rune with
  | .str s =>
    pure
      { id := .str (idKind ++ "-" ++ rnd), name := rune,
        imageUrl := "/assets/runes/" ++ jsReplaceWsRuns (jsToLower s) ++ ".webp",
        description := .str descr }
  | _ => throw "TypeError: rune.toLowerCase is not a function"

/-- Function `transformRunesData` (`openaiApi.ts` lines 59-98): falsy input yields
`[]`; otherwise the keystone (when truthy), the primary slots (when an
array) and the secondary slots (when secondary is truthy and its slots an
array) are pushed in order. -/
def transformRunesData (rnd : Nat → String) (runesData : JsVal) :
    Except String (List NormRune) := do
  if !runesData.truthy then
    return []
  let primary := runesData.prop "primary"
  let keystoneRunes ←
    if primary.truthy then
      let keystone := primary.prop "keystone"
      if keystone.truthy then
        match keystone with
        | .str s =>
          pure [{ id := JsVal.str ("keystone-" ++ rnd 0), name := keystone,
                  imageUrl := "/assets/runes/" ++ jsReplaceWsRuns (jsToLower s) ++ ".webp",
                  description :=
                    jsOr (primary.prop "explanation") (.str "Primary keystone rune") :
                  NormRune }]
        | _ => throw "TypeError: keystone.toLowerCase is not a function"
      else pure []
    else pure []
  let primaryRunes ←
    if primary.truthy then
      match primary.prop "slots" with
      | .arr xs => xs.enum.mapM (fun p => transformSlotRune "primary" (rnd (1 + p.1)) "Primary path rune" p.2)
      | _ => pure []
    else pure []
  let secondary := runesData.prop "secondary"
  let secondaryRunes ←
    if secondary.truthy then
      match secondary.prop "slots" with
      | .arr xs => xs.enum.mapM (fun p => transformSlotRune "secondary" (rnd (100 + p.1)) "Secondary path rune" p.2)
      | _ => pure []
    else pure []
  pure (keystoneRunes ++ primaryRunes ++ secondaryRunes)

/-- The expression `xs?.map(s => pre + String(s)).join(sep)`: `undefined` short-circuits
the optional chain, a truthy non-array has no `map` method. -/
def optMapJoin (pre sep : String) (v : JsVal) : Except String JsVal :=
  match v with
  | .undefined => pure .undefined
  | .null => pure .undefined
  | .arr xs => pure (.str (String.intercalate sep (xs.map (fun x => pre ++ jsString x))))
  | _ => throw "TypeError: map is not a function"

/-- The expression `xs?.join(sep)`. -/
def optJoin (sep : String) (v : JsVal) : Except String JsVal :=
  match v with
  | .undefined => pure .undefined
  | .null => pure .undefined
  | .arr xs => pure (.str (String.intercalate sep (xs.map jsString)))
  | _ => throw "TypeError: join is not a function"

/-- The expression `situational_items?.map(item => ...).join('\n')` (`openaiApi.ts` lines
308-310): the callback reads `item.item`, `item.when` and
`item.instead_of` with plain access, so a nullish entry throws. -/
def situationalMapJoin (v : JsVal) : Except String JsVal :=
  match v with
  | .undefined => pure .undefined
  | .null => pure .undefined
  | .arr xs => do
    let pieces ← xs.mapM (fun it => do
      if it.isNullish then
        throw "TypeError: Cannot read properties of null or undefined"
      pure ("\n- " ++ jsString (it.prop "item") ++ ": " ++ jsString (it.prop "when")
        ++ "\n  Replaces: " ++ jsString (it.prop "instead_of")))
    pure (.str (String.intercalate "\n" pieces))
  | _ => throw "TypeError: map is not a function"

/-- The entries of the `strategyText` array literal (`openaiApi.ts` lines
255-311), in source order, before `.filter(Boolean).join('\n')`.  A plain
property access on nullish `data` throws. -/
def strategyLinesV1 (data : JsVal) : Except String (List JsVal) := do
  if data.isNullish then
    throw "TypeError: Cannot read properties of null or undefined"
  let ta := data.prop "team_analysis"
  let strat := data.prop "strategy"
  let bo := data.prop "build_order"
  let allyStrengths ← optMapJoin "- " "\n" (ta.optProp "ally_strengths")
  let enemyThreats ← optMapJoin "- " "\n" (ta.optProp "enemy_threats")
  let earlySpikes ← optMapJoin "- " "\n" ((strat.optProp "early_game").optProp "power_spikes")
  let earlyObjectives ← optMapJoin "- " "\n" ((strat.optProp "early_game").optProp "objectives")
  let midSpikes ← optMapJoin "- " "\n" ((strat.optProp "mid_game").optProp "power_spikes")
  let midObjectives ← optMapJoin "- " "\n" ((strat.optProp "mid_game").optProp "objectives")
  let coreSequence ← optJoin " â†’ " ((bo.optProp "core_items").optProp "sequence")
  let situational ← situationalMapJoin (bo.optProp "situational_items")
  pure
    [ .str "ðŸ“Š Team Analysis:\n",
      .str "Allied Team Strengths:",
      allyStrengths,
      .str "\nEnemy Threats:",
      enemyThreats,
      .str "\nDamage Distribution:",
      .str ("- Allied Team: " ++ jsString ((ta.optProp "damage_distribution").optProp "allied")),
      .str ("- Enemy Team: " ++ jsString ((ta.optProp "damage_distribution").optProp "enemy")),
      .str "\n\nðŸŒ… Early Game:\n",
      (strat.optProp "early_game").optProp "approach",
      .str "\nTrading Pattern:",
      (strat.optProp "early_game").optProp "trading_pattern",
      .str "\nPower Spikes:",
      earlySpikes,
      .str "\nObjectives:",
      earlyObjectives,
      .str "\n\nðŸŒ¤ï¸ Mid Game:\n",
      (strat.optProp "mid_game").optProp "approach",
      .str "\nTeam Role:",
      (strat.optProp "mid_game").optProp "role_in_team",
      .str "\nPower Spikes:",
      midSpikes,
      .str "\nObjectives:",
      midObjectives,
      .str "\n\nðŸŒ• Late Game:\n",
      (strat.optProp "late_game").optProp "approach",
      .str "\nTeam Fighting:",
      (strat.optProp "late_game").optProp "team_fighting",
      .str "\nWin Condition:",
      (strat.optProp "late_game").optProp "win_condition",
      .str "\n\nâš”ï¸ Build Path:\n",
      .str "Starting Items:",
      (bo.optProp "starting_items").optProp "explanation",
      .str "\nFirst Back:",
      .str ("Target Gold: " ++ jsString ((bo.optProp "first_back").optProp "ideal_gold")),
      (bo.optProp "first_back").optProp "explanation",
      .str "\nIf Ahead:",
      ((bo.optProp "first_back").optProp "variations").optProp "ahead",
      .str "\nIf Behind:",
      ((bo.optProp "first_back").optProp "variations").optProp "behind",
      .str "\nIf Even:",
      ((bo.optProp "first_back").optProp "variations").optProp "even",
      .str "\nCore Build Order:",
      (bo.optProp "core_items").optProp "reasoning",
      coreSequence,
      .str "\nSituational Items:",
      situational ]

/-- The pattern `.filter(Boolean).join('\n')`: drop falsy entries, join the rest. -/
def filterJoin (lines : List JsVal) : String :=
  String.intercalate "\n" ((lines.filter JsVal.truthy).map jsString)

/-- The assembled `strategyText` string of `openaiApi.ts` lines 255-311. -/
def strategyTextV1 (data : JsVal) : Except String String :=
  filterJoin <$> strategyLinesV1 data

/-- The normalized `BuildRecommendation` the client returns
(`openaiApi.ts` lines 313-319). -/
structure BuildRec where
  items : List NormItem
  runes : List NormRune
  explanation : String
  forChampion : ClientChampion
  forRole : Option String

/-- The response normalization performed at `openaiApi.ts` lines 255-319:
`strategyText` is assembled first, then
`transformItemsData(data.items || [])` and
`transformRunesData(data.runes || {})`, and the explanation falls back to
a fixed message when empty. -/
def normalizeV1 (rnd : Nat → String) (data : JsVal) (pc : ClientChampion)
    (role : Option String) : Except String BuildRec := do
  let expl ← strategyTextV1 data
  let items ← transformItemsData rnd (jsOr (data.prop "items") (.arr []))
  let runes ← transformRunesData rnd (jsOr (data.prop "runes") (.obj []))
  pure
    { items := items, runes := runes,
      explanation := if expl = "" then "No strategy information available" else expl,
      forChampion := pc, forRole := role }

/-- The expression `x?.length`: `undefined` when the chain short-circuits, the length of
a string or array, a `length` field of an object, `undefined` otherwise. -/
def jsOptLength (v : JsVal) : JsVal :=
  match v with
  | .undefined => .undefined
  | .null => .undefined
  | .str s => .num s.length
  | .arr xs => .num xs.length
  | .obj fs => JsVal.prop (.obj fs) "length"
  | _ => .undefined

/-- Comparison `v > 0` on a length result (a number or `undefined`; `undefined > 0`
is `false` in JavaScript). -/
def jsGtZero (v : JsVal) : Bool :=
  match v with
  | .num n => 0 < n
  | _ => false

/-- The spread `...(x?.map(s => pre + String(s)) || [])`: nothing when the chain
short-circuits, one bullet string per element of an array, a `TypeError`
when `x` is truthy without a callable `map`. -/
def optMapBulletList (pre : String) (v : JsVal) : Except String (List JsVal) :=
  match v with
  | .undefined => pure []
  | .null => pure []
  | .arr xs => pure (xs.map (fun x => .str (pre ++ jsString x)))
  | _ => throw "TypeError: map is not a function"

/-- The entries of the `strategyText` array literal of `openaiApi.ts`
lines 952-975 (conditional section headings, spread bullet lists), before
`.filter(Boolean).join('\n')`. -/
def strategyLinesV4 (data : JsVal) : Except String (List JsVal) := do
  if data.isNullish then
    throw "TypeError: Cannot read properties of null or undefined"
  let ta := data.prop "team_analysis"
  let strat := data.prop "strategy"
  let asv := ta.optProp "ally_strengths"
  let etv := ta.optProp "enemy_threats"
  let dd := ta.optProp "damage_distribution"
  let early := strat.optProp "early_game"
  let mid := strat.optProp "mid_game"
  let late := strat.optProp "late_game"
  let allyBullets ← optMapBulletList "‚Ä¢ " asv
  let threatBullets ← optMapBulletList "‚Ä¢ " etv
  let spikeBullets ← optMapBulletList "‚Ä¢ " (early.optProp "power_spikes")
  pure (
    [ .str "üìä Team Analysis:",
      if jsGtZero (jsOptLength asv) then .str "Allied Strengths:" else .str "" ]
    ++ allyBullets
    ++ [ if jsGtZero (jsOptLength etv) then .str "\nEnemy Threats:" else .str "" ]
    ++ threatBullets
    ++ [ .str "\nDamage Profile:",
         if (dd.optProp "allied").truthy then
           .str ("‚Ä¢ Allied Team: " ++ jsString (dd.optProp "allied"))
         else .str "",
         if (dd.optProp "enemy").truthy then
           .str ("‚Ä¢ Enemy Team: " ++ jsString (dd.optProp "enemy"))
         else .str "",
         .str "\nüåÖ Early Game:",
         jsOr (early.optProp "approach") (.str ""),
         if (early.optProp "trading_pattern").truthy then
           .str ("\nTrading Pattern: " ++ jsString (early.optProp "trading_pattern"))
         else .str "",
         if jsGtZero (jsOptLength (early.optProp "power_spikes")) then
           .str "\nPower Spikes:"
         else .str "" ]
    ++ spikeBullets
    ++ [ .str "\nüå§Ô∏è Mid Game:",
         jsOr (mid.optProp "approach") (.str ""),
         if (mid.optProp "role_in_team").truthy then
           .str ("\nTeam Role: " ++ jsString (mid.optProp "role_in_team"))
         else .str "",
         .str "\nüåï Late Game:",
         jsOr (late.optProp "approach") (.str ""),
         if (late.optProp "win_condition").truthy then
           .str ("\nWin Condition: " ++ jsString (late.optProp "win_condition"))
         else .str "" ])

/-- The assembled `strategyText` string of `openaiApi.ts` lines 952-975. -/
def strategyTextV4 (data : JsVal) : Except String String :=
  filterJoin <$> strategyLinesV4 data

/-! ## The retry helpers (`fetchWithRetry`) -/

/-- A resolved `fetch` response: its `ok` flag, status line, and the
outcome of `JSON.parse` on its body text (`none` when the body is not
valid JSON). -/
structure JsResponse where
  ok : Bool
  status : Nat
  statusText : String
  bodyJson : Option JsVal

/-- The outcome of one `fetch` attempt for the plain retry helper:
either the promise resolves to a response, or it rejects with an error
message. -/
inductive FetchOutcome where
  | resolved (r : JsResponse)
  | reject (msg : String)

/-- The error message thrown for a non-ok response (`openaiApi.ts` lines
25-33).  The `try` block always throws — either `JSON.parse` throws, or
the code itself throws `new Error(errorData.error || generic)` — and that
error is caught by the block's own `catch (e)` clause, which throws the
generic message, discarding whatever the `try` block threw. -/
def nonOkError (status : Nat) (statusText : String) (parsedBody : Option JsVal) :
    String :=
  let generic := "API error: " ++ toString status ++ " " ++ statusText
  let thrownInTry : String :=
    match parsedBody with
    | none => "SyntaxError: Unexpected token"
    | some errorData =>
      if errorData.isNullish then
        "TypeError: Cannot read properties of null or undefined"
      else jsString (jsOr (errorData.prop "error") (.str generic))
  match (Except.error thrownInTry : Except String String) with
  | .ok s => s
  | .error _ => generic

/-- What `fetchWithRetry` did: how many `fetch` attempts it issued, the
`setTimeout` delays it waited between consecutive attempts, and the value
it returned or the error it threw. -/
structure RetryTrace where
  attempts : Nat
  delays : List Nat
  result : Except String JsResponse

/-- Function `fetchWithRetry` of `openaiApi.ts` lines 12-40: attempt `k` (the
oracle gives each attempt's outcome); a non-ok response throws
`nonOkError`; any caught error is rethrown when `retries <= 1` and
otherwise retried after `backoff` ms with `retries - 1` and doubled
backoff. -/
def fetchWithRetry1 (oracle : Nat → FetchOutcome) :
    Nat → Nat → Nat → RetryTrace
  | k, retries, backoff =>
    let attempt : Except String JsResponse :=
      match oracle k with
      | .resolved r =>
        if r.ok then .ok r else .error (nonOkError r.status r.statusText r.bodyJson)
      | .reject m => .error m
    match attempt, retries with
    | .ok r, _ => ⟨1, [], .ok r⟩
    | .error e, 0 => ⟨1, [], .error e⟩
    | .error e, 1 => ⟨1, [], .error e⟩
    | .error _, n + 2 =>
      let rest := fetchWithRetry1 oracle (k + 1) (n + 1) (backoff * 2)
      ⟨rest.attempts + 1, backoff :: rest.delays, rest.result⟩

/-- The outcome of one `fetch` attempt for the timeout-aware retry helper
(`openaiApi.ts` lines 540-583): additionally, the 30 s timer may fire and
abort the call, making `fetch` reject with an `AbortError`. -/
inductive FetchOutcome3 where
  | resolved (r : JsResponse)
  | reject (msg : String)
  | timeout

/-- The fixed message thrown when an attempt is aborted by the timeout
(`openaiApi.ts` line 574). -/
def timedOutMsg : String := "La requête a pris trop de temps. Veuillez réessayer."

/-- Function `fetchWithRetry` of `openaiApi.ts` lines 540-583: like
`fetchWithRetry1`, but each attempt is raced against a 30 s abort timer;
an `AbortError` is translated to the fixed timed-out message and thrown
immediately, before the retry check, so a timed-out attempt is never
retried. -/
def fetchWithRetry3 (oracle : Nat → FetchOutcome3) :
    Nat → Nat → Nat → RetryTrace
  | k, retries, backoff =>
    let attempt : Except String JsResponse :=
      match oracle k with
      | .resolved r =>
        if r.ok then .ok r else .error (nonOkError r.status r.statusText r.bodyJson)
      | .timeout => .error timedOutMsg
      | .reject m => .error m
    match oracle k, attempt, retries with
    | .timeout, _, _ => ⟨1, [], .error timedOutMsg⟩
    | _, .ok r, _ => ⟨1, [], .ok r⟩
    | _, .error e, 0 => ⟨1, [], .error e⟩
    | _, .error e, 1 => ⟨1, [], .error e⟩
    | _, .error _, n + 2 =>
      let rest := fetchWithRetry3 oracle (k + 1) (n + 1) (backoff * 2)
      ⟨rest.attempts + 1, backoff :: rest.delays, rest.result⟩

/-! ## The client pipeline (`generateBuildRecommendation`, lines 100-331) -/

/-- What one `generateBuildRecommendation` call did: the total number of
`fetch` attempts it issued (health check plus build request) and its
returned value or thrown error. -/
structure GenResult where
  fetches : Nat
  outcome : Except String BuildRec

/-- Function `generateBuildRecommendation` of `openaiApi.ts` lines 100-331:
validate the champion and rosters, health-check (errors swallowed), then
POST the build request with `fetchWithRetry(..., 2, 500)` and normalize
the JSON body.  The network is abstracted by the two per-attempt outcome
oracles; the request body (including the prompt string assembled at lines
129-238) is data handed to the abstracted network and is not modelled. -/
def generateBuildRecommendation (rnd : Nat → String)
    (healthOracle buildOracle : Nat → FetchOutcome)
    (allies enemies : Option (List ClientChampion))
    (playerChampion : Option ClientChampion) (playerRole : Option String) :
    GenResult :=
  match playerChampion with
  | none => ⟨0, .error "Please select your champion first"⟩
  | some pc =>
    if (allies.getD []).length = 0 || (enemies.getD []).length = 0 then
      ⟨0, .error "Please add champions to both teams"⟩
    else
      let h := fetchWithRetry1 healthOracle 0 3 300
      let healthCheckPassed := match h.result with | .ok r => r.ok | .error _ => false
      if healthCheckPassed then
        let b := fetchWithRetry1 buildOracle 0 2 500
        match b.result with
        | .error e => ⟨h.attempts + b.attempts, .error e⟩
        | .ok resp =>
          match resp.bodyJson with
          | none => ⟨h.attempts + b.attempts, .error "SyntaxError: Unexpected token"⟩
          | some data =>
            match normalizeV1 rnd data pc playerRole with
            | .ok rec => ⟨h.attempts + b.attempts, .ok rec⟩
            | .error e => ⟨h.attempts + b.attempts, .error e⟩
      else ⟨h.attempts, .error "Build recommendation service is unavailable"⟩

/-! ## The server (`server.js`) -/

/-- JavaScript `Array.prototype.join('_')` on a list of id strings. -/
def joinU : List String → String
  | [] => ""
  | [x] => x
  | x :: y :: ys => x ++ "_" ++ joinU (y :: ys)

/-- The cache key of `server.js` line 141:
`` `build_${playerChampion.id}_${playerRole}_${allies.map(c => c.id).join('_')}_${enemies.map(c => c.id).join('_')}` ``
(an absent `playerRole` interpolates as `"undefined"`). -/
def cacheKey (pc : ClientChampion) (playerRole : Option String)
    (allies enemies : List ClientChampion) : String :=
  "build_" ++ pc.id ++ "_"
    ++ (match playerRole with | some r => r | none => "undefined") ++ "_"
    ++ joinU (allies.map (fun c => c.id)) ++ "_"
    ++ joinU (enemies.map (fun c => c.id))

/-- The request body of `POST /api/build-recommendation` as the handler
destructures it (`server.js` line 124). -/
structure ReqBody where
  allies : Option (List ClientChampion)
  enemies : Option (List ClientChampion)
  playerChampion : Option ClientChampion
  playerRole : Option String
  prompt : String

/-- The `details` map of the 400 response (`server.js` lines 129-133):
one entry per missing field, `undefined` (here `none`) for fields that
are present. -/
structure ValidationDetails where
  allies : Option String
  enemies : Option String
  playerChampion : Option String
deriving Repr, DecidableEq

/-- The recommendation object the handler caches and returns
(`server.js` lines 207-215). -/
structure SrvRecommendation where
  items : JsVal
  runes : JsVal
  strategy : JsVal
  team_analysis : JsVal
  build_order : JsVal
  forChampion : ClientChampion
  forRole : Option String

/-- The HTTP response of the handler: the 400 validation response, the
200 JSON payload, or a catch-mapped error response (status, error
message, optional `details` shown only in dev mode). -/
inductive SrvResponse where
  | badRequest (error : String) (details : ValidationDetails)
  | okJson (rec : SrvRecommendation)
  | errorJson (status : Nat) (error : String) (details : Option String)

/-- The HTTP status code of a handler response (400 / 200 / mapped). -/
def SrvResponse.statusCode : SrvResponse → Nat
  | .badRequest _ _ => 400
  | .okJson _ => 200
  | .errorJson s _ _ => s

/-- A JavaScript error as the catch clause inspects it: its message, and
an optional `status` property (plain `Error`s have none; HTTP-library
errors may carry one). -/
structure JsError where
  message : String
  status : Option Nat
deriving Repr, DecidableEq

/-- Fallback `error.status || 500` (`server.js` line 237): a missing or zero
status falls back to 500. -/
def errStatusOr500 : Option Nat → Nat
  | some s => if s = 0 then 500 else s
  | none => 500

/-- The catch clause of the handler (`server.js` lines 220-241): a
message containing `"timeout"` maps to 504, one containing
`"rate limits"` maps to 429, anything else to `error.status || 500` with
a generic message; `details` carries the raw message only in dev mode. -/
def mapErrorToResponse (isDev : Bool) (e : JsError) : SrvResponse :=
  if jsIncludes e.message "timeout" then
    .errorJson 504 "Request timed out. Please try again."
      (if isDev then some e.message else none)
  else if jsIncludes e.message "rate limits" then
    .errorJson 429 "Too many requests. Please try again later."
      (if isDev then some e.message else none)
  else
    .errorJson (errStatusOr500 e.status) "Failed to generate build recommendation"
      (if isDev then some e.message else none)

/-- The outcome of one OpenAI completion attempt inside
`getOpenAIResponse` (`server.js` lines 148-189): the call resolves to a
completion value, the 60 s `pTimeout` fires, or the call rejects. -/
inductive OrcAttempt where
  | ok (completion : JsVal)
  | timeout
  | fail (e : JsError)

/-- The error `pTimeout` rejects with (`server.js` line 170). -/
def orcTimeoutError : JsError := ⟨"OpenAI API request timed out", none⟩

/-- Library call `pRetry` around the completion attempts (`server.js` lines 149-186,
`retries: 3`, so at most `1 + 3` attempts): returns how many completion
attempts were issued and the first success or the last failure. -/
def runWithRetries (oracle : Nat → OrcAttempt) :
    Nat → Nat → Nat × Except JsError JsVal
  | _, 0 => (0, .error ⟨"no attempts", none⟩)
  | k, n + 1 =>
    match oracle k with
    | .ok c => (1, .ok c)
    | .timeout =>
      if n = 0 then (1, .error orcTimeoutError)
      else
        let rest := runWithRetries oracle (k + 1) n
        (rest.1 + 1, rest.2)
    | .fail e =>
      if n = 0 then (1, .error e)
      else
        let rest := runWithRetries oracle (k + 1) n
        (rest.1 + 1, rest.2)

/-- Indexing `completion.choices[0]` (`server.js` line 193): indexing a nullish
value throws, an array yields its head or `undefined`, any other value
yields `undefined` for index 0. -/
def jsIndex0 : JsVal → Except String JsVal
  | .undefined => .error "TypeError: Cannot read properties of undefined"
  | .null => .error "TypeError: Cannot read properties of null"
  | .arr [] => pure .undefined
  | .arr (x :: _) => pure x
  | v => pure (v.prop "0")

/-- A cache entry: the stored recommendation and its absolute expiry
time.

Modelled from the spec: the `node-cache` instance of `server.js` lines
40-43 is an external library whose code is not in the repository; its
behaviour is taken from the spec's cache contract — `set` stores a value
under the configured fixed TTL of one hour (`stdTTL: 3600`), `get`
returns it until the entry expires. -/
structure CacheEntry where
  value : SrvRecommendation
  expiresAt : Nat

/-- The server's in-memory cache state: key/entry associations. -/
def ServerCache := List (String × CacheEntry)

/-- Lookup `cache.get(key)` at time `now` (seconds): the stored value while the
entry has not expired. -/
def cacheGet (st : ServerCache) (key : String) (now : Nat) :
    Option SrvRecommendation :=
  match st.find? (fun p => p.1 = key) with
  | some p => if now < p.2.expiresAt then some p.2.value else none
  | none => none

/-- Store `cache.set(key, value)` at time `now`: stores under the fixed
one-hour TTL (`stdTTL: 3600` seconds). -/
def cacheSet (st : ServerCache) (key : String) (value : SrvRecommendation)
    (now : Nat) : ServerCache :=
  (key, ⟨value, now + 3600⟩) :: st

/-- What one handler invocation did: the HTTP response it sent, the cache
state afterwards, and how many upstream completion attempts it issued. -/
structure HandleResult where
  response : SrvResponse
  state : ServerCache
  upstreamCalls : Nat

/-- The success path after the completion resolved (`server.js` lines
193-215): extract `completion.choices[0]?.message?.content`, reject a
falsy content, `JSON.parse` it (`parse` models `JSON.parse`, `none` for a
parse failure), and shape the recommendation with empty-collection
defaults. -/
def buildRecommendationFromCompletion (parse : String → Option JsVal)
    (pc : ClientChampion) (playerRole : Option String) (completion : JsVal) :
    Except JsError SrvRecommendation := do
  if completion.isNullish then
    throw ⟨"TypeError: Cannot read properties of null or undefined", none⟩
  let choice0 ←
    match jsIndex0 (completion.prop "choices") with
    | .ok v => pure v
    | .error m => throw ⟨m, none⟩
  let aiResponse := (choice0.optProp "message").optProp "content"
  if !aiResponse.truthy then
    throw ⟨"No response from OpenAI API", none⟩
  match parse (jsString aiResponse) with
  | none => throw ⟨"Invalid response format from OpenAI", none⟩
  | some parsedResponse =>
    if parsedResponse.isNullish then
      throw ⟨"TypeError: Cannot read properties of null or undefined", none⟩
    pure
      { items := jsOr (parsedResponse.prop "items") (.arr []),
        runes := jsOr (parsedResponse.prop "runes") (.obj []),
        strategy := jsOr (parsedResponse.prop "strategy") (.obj []),
        team_analysis := jsOr (parsedResponse.prop "team_analysis") (.obj []),
        build_order := jsOr (parsedResponse.prop "build_order") (.obj []),
        forChampion := pc, forRole := playerRole }

/-- The `POST /api/build-recommendation` handler (`server.js` lines
122-242): field validation to 400, `openai` initialization check, cache
lookup with the key of line 141, the retried completion call on a miss,
shaping and caching of the result, and the catch clause's error-to-HTTP
mapping. -/
def handleBuildRecommendation (isDev openaiInit : Bool)
    (orc : Nat → OrcAttempt) (parse : String → Option JsVal)
    (now : Nat) (st : ServerCache) (req : ReqBody) : HandleResult :=
  let alliesMissing := (req.allies.getD []).length = 0
  let enemiesMissing := (req.enemies.getD []).length = 0
  let validationFailure (championMissing : Bool) : HandleResult :=
    ⟨.badRequest "Missing required data"
      ⟨if alliesMissing then some "Missing allies" else none,
       if enemiesMissing then some "Missing enemies" else none,
       if championMissing then some "Missing player champion" else none⟩,
     st, 0⟩
  match req.playerChampion with
  | none => validationFailure true
  | some pc =>
    if alliesMissing || enemiesMissing then validationFailure false
    else
      if !openaiInit then
        ⟨mapErrorToResponse isDev ⟨"OpenAI API not initialized", none⟩, st, 0⟩
      else
        let key := cacheKey pc req.playerRole (req.allies.getD []) (req.enemies.getD [])
        match cacheGet st key now with
        | some cached => ⟨.okJson cached, st, 0⟩
        | none =>
          let run := runWithRetries orc 0 4
          match run.2 with
          | .error e => ⟨mapErrorToResponse isDev e, st, run.1⟩
          | .ok completion =>
            match buildRecommendationFromCompletion parse pc req.playerRole completion with
            | .error e => ⟨mapErrorToResponse isDev e, st, run.1⟩
            | .ok recommendation =>
              ⟨.okJson recommendation, cacheSet st key recommendation now, run.1⟩

/-! ## The feedback hook (`useBuildFeedback.ts`) -/

/-- A stored feedback record (`src/types.ts` lines 92-100). -/
structure BuildFeedback where
  id : String
  championId : String
  role : Option String
  items : List String
  success : Bool
  playerName : String
  timestamp : Nat
deriving Repr, DecidableEq

/-- Function `getChampionFeedback` (`useBuildFeedback.ts` lines 36-38): the
feedback entries for one champion. -/
def getChampionFeedback (feedbackList : List BuildFeedback)
    (championId : String) : List BuildFeedback :=
  feedbackList.filter (fun f => f.championId = championId)

/-- Function `getSuccessRate` (`useBuildFeedback.ts` lines 40-46): `0` with no
entries, otherwise the percentage of successful entries (exact rational
arithmetic standing in for JavaScript numbers). -/
def getSuccessRate (feedbackList : List BuildFeedback) (championId : String) :
    ℚ :=
  let feedback := getChampionFeedback feedbackList championId
  if feedback.length = 0 then 0
  else ((feedback.filter (fun f => f.success)).length : ℚ) / (feedback.length : ℚ) * 100

/-! ## Helpers for stating the claims -/

/-- Did a `fetch` attempt fail, i.e. reject or resolve to a non-ok
response?  (Such an attempt makes `fetchWithRetry` throw and enter its
retry logic.) -/
def FetchOutcome.isFailure : FetchOutcome → Bool
  | .resolved r => !r.ok
  | .reject _ => true

/-- The error message a failing attempt makes `fetchWithRetry` throw. -/
def FetchOutcome.errMsg : FetchOutcome → String
  | .resolved r => nonOkError r.status r.statusText r.bodyJson
  | .reject m => m

/-- Does an assembled explanation (when it was assembled at all) contain
a given substring? -/
def explanationContains (r : Except String String) (sub : String) : Bool :=
  match r with
  | .ok s => jsIncludes s sub
  | .error _ => false

/-- Lexicographic order on character lists, by code point. -/
def charsLeB : List Char → List Char → Bool
  | [], _ => true
  | _ :: _, [] => false
  | a :: as, b :: bs =>
    if a.toNat < b.toNat then true
    else if b.toNat < a.toNat then false
    else charsLeB as bs

/-- Insert a string into a lexicographically sorted list. -/
def insertSorted (x : String) : List String → List String
  | [] => [x]
  | y :: ys => if charsLeB x.data y.data then x :: y :: ys else y :: insertSorted x ys

/-- Insertion sort on strings. -/
def sortStrings : List String → List String
  | [] => []
  | x :: xs => insertSorted x (sortStrings xs)

/-- The sorted id sequence of a roster (what the spec's
"sorted/concatenated identities" would feed into the key). -/
def sortedIds (roster : List ClientChampion) : List String :=
  sortStrings (roster.map (fun c => c.id))

/-! ## Shared lemmas -/

theorem str_append_right_cancel {a b c : String} (h : a ++ c = b ++ c) : a = b := by
  apply String.ext
  have hd := congrArg String.data h
  rw [String.data_append, String.data_append] at hd
  exact List.append_cancel_right hd

theorem str_append_left_cancel {a b c : String} (h : a ++ b = a ++ c) : b = c := by
  apply String.ext
  have hd := congrArg String.data h
  rw [String.data_append, String.data_append] at hd
  exact List.append_cancel_left hd

theorem joinU_cons_of_ne_nil (a : String) (l : List String) (h : l ≠ []) :
    joinU (a :: l) = a ++ "_" ++ joinU l := by
  cases l with
  | nil => exact absurd rfl h
  | cons b bs => rfl

/-- Changing exactly one element of a joined id list changes the join. -/
theorem joinU_changed_ne (x y : String) (h : x ≠ y) :
    ∀ (pre suf : List String), joinU (pre ++ x :: suf) ≠ joinU (pre ++ y :: suf)
  | [], [] => by simpa [joinU] using h
  | [], s :: ss => by
    simp only [List.nil_append]
    rw [joinU_cons_of_ne_nil x (s :: ss) (by simp),
      joinU_cons_of_ne_nil y (s :: ss) (by simp)]
    intro heq
    exact h (str_append_right_cancel (str_append_right_cancel heq))
  | a :: pre, suf => by
    simp only [List.cons_append]
    rw [joinU_cons_of_ne_nil a (pre ++ x :: suf) (by simp),
      joinU_cons_of_ne_nil a (pre ++ y :: suf) (by simp)]
    intro heq
    exact joinU_changed_ne x y h pre suf (str_append_left_cancel heq)

/-- A bullet line of the lines-952-975 explanation never coincides with
the ally-strengths heading: the bullet prefix opens with a different
character. -/
theorem bullet_ne_ally_heading (t : String) :
    "‚Ä¢ " ++ t ≠ "Allied Strengths:" := by
  intro heq
  have hd := congrArg String.data heq
  rw [String.data_append] at hd
  have hpre : ("‚Ä¢ " : String).data = ['‚', 'Ä', '¢', ' '] := rfl
  rw [hpre] at hd
  simp only [List.cons_append] at hd
  injection hd with h1 _
  exact absurd h1 (by decide)

/-! ## The claims -/

/-- C10: `getSuccessRate` returns 0 for a champion with no feedback
entries, and otherwise the exact success percentage; the divisor is the
entry count, which is nonzero in that branch. -/
theorem getSuccessRate_spec (l : List BuildFeedback) (cid : String) :
    (getChampionFeedback l cid = [] → getSuccessRate l cid = 0) ∧
    (getChampionFeedback l cid ≠ [] →
      ((getChampionFeedback l cid).length : ℚ) ≠ 0 ∧
      getSuccessRate l cid =
        (((getChampionFeedback l cid).filter (fun f => f.success)).length : ℚ)
          / ((getChampionFeedback l cid).length : ℚ) * 100) := by
  constructor
  · intro h
    simp [getSuccessRate, h]
  · intro h
    have hlen : (getChampionFeedback l cid).length ≠ 0 := by
      simpa [List.length_eq_zero] using h
    refine ⟨by exact_mod_cast hlen, ?_⟩
    simp [getSuccessRate, hlen]

/-- C10 witness: one successful Ahri entry gives a 100 % success rate. -/
theorem getSuccessRate_spec_witness :
    getChampionFeedback [⟨"f1", "Ahri", none, [], true, "p", 0⟩] "Ahri" ≠ [] ∧
    ((getChampionFeedback [⟨"f1", "Ahri", none, [], true, "p", 0⟩] "Ahri").length : ℚ) ≠ 0 ∧
    getSuccessRate [⟨"f1", "Ahri", none, [], true, "p", 0⟩] "Ahri" =
      (((getChampionFeedback [⟨"f1", "Ahri", none, [], true, "p", 0⟩] "Ahri").filter
          (fun f => f.success)).length : ℚ)
        / ((getChampionFeedback [⟨"f1", "Ahri", none, [], true, "p", 0⟩] "Ahri").length : ℚ)
        * 100 :=
  ⟨by decide, (getSuccessRate_spec [⟨"f1", "Ahri", none, [], true, "p", 0⟩] "Ahri").2 (by decide)⟩

/-- C8: at `openaiApi.ts` lines 25-33 the `try` block's own
`throw new Error(errorData.error || ...)` is caught by the adjacent
`catch`, so even for a body that parses and carries an `error` field the
thrown message is the generic status-line message, not the extracted
one. -/
theorem nonOkError_ignores_parsed_body :
    nonOkError 429 "Too Many Requests"
        (some (.obj [("error", .str "rate limit exceeded")]))
      = "API error: 429 Too Many Requests" ∧
    nonOkError 429 "Too Many Requests"
        (some (.obj [("error", .str "rate limit exceeded")]))
      ≠ "rate limit exceeded" := by
  exact ⟨rfl, by decide⟩

/-- C9 counterexample: with every attempt timing out and `retries = 3`,
the helper terminates after exactly 1 attempt (not 3): the abort error is
rethrown before the retry check. -/
theorem fetchWithRetry3_all_timeout_one_attempt :
    (fetchWithRetry3 (fun _ => .timeout) 0 3 300).attempts = 1 ∧
    (fetchWithRetry3 (fun _ => .timeout) 0 3 300).attempts ≠ 3 ∧
    (fetchWithRetry3 (fun _ => .timeout) 0 3 300).result = .error timedOutMsg := by
  exact ⟨rfl, by decide, rfl⟩

/-- C9 (amended): when an attempt exceeds the client timeout the helper
aborts it and immediately raises the fixed timed-out message without
retrying, for any configured retry count: a call whose first attempt
times out terminates after exactly 1 attempt with the timeout-flavored
error. -/
theorem fetchWithRetry3_timeout_aborts (oracle : Nat → FetchOutcome3)
    (retries backoff : Nat) (h : oracle 0 = .timeout) :
    fetchWithRetry3 oracle 0 retries backoff = ⟨1, [], .error timedOutMsg⟩ ∧
    (fetchWithRetry3 oracle 0 retries backoff).attempts = 1 := by
  have : fetchWithRetry3 oracle 0 retries backoff = ⟨1, [], .error timedOutMsg⟩ := by
    rw [fetchWithRetry3]
    rw [h]
  exact ⟨this, by rw [this]⟩

/-- C9 witness: the amended theorem at the always-timeout oracle with
`retries = 3`. -/
theorem fetchWithRetry3_timeout_aborts_witness :
    fetchWithRetry3 (fun _ => .timeout) 0 3 250 = ⟨1, [], .error timedOutMsg⟩ ∧
    (fetchWithRetry3 (fun _ => .timeout) 0 3 250).attempts = 1 :=
  fetchWithRetry3_timeout_aborts (fun _ => .timeout) 3 250 rfl

/-- C2: with `retries = 3` and initial backoff `b` the helper issues at
most 3 attempts, waiting `b` then `b * 2` between consecutive attempts;
two failures followed by a success return the successful response after
exactly 3 attempts; three failures terminate after exactly 3 attempts and
propagate the last attempt's error. -/
theorem fetchWithRetry1_retries3_spec (oracle : Nat → FetchOutcome) (b : Nat) :
    (fetchWithRetry1 oracle 0 3 b).attempts ≤ 3 ∧
    (fetchWithRetry1 oracle 0 3 b).delays =
      [b, b * 2].take ((fetchWithRetry1 oracle 0 3 b).attempts - 1) ∧
    (∀ r, (oracle 0).isFailure = true → (oracle 1).isFailure = true →
      oracle 2 = .resolved r → r.ok = true →
      fetchWithRetry1 oracle 0 3 b = ⟨3, [b, b * 2], .ok r⟩) ∧
    ((oracle 0).isFailure = true → (oracle 1).isFailure = true →
      (oracle 2).isFailure = true →
      (fetchWithRetry1 oracle 0 3 b).attempts = 3 ∧
      (fetchWithRetry1 oracle 0 3 b).result = .error (oracle 2).errMsg) := by
  rcases h0 : oracle 0 with r0 | m0 <;>
    rcases h1 : oracle 1 with r1 | m1 <;>
    rcases h2 : oracle 2 with r2 | m2
  all_goals
    first
    | (rcases hk0 : r0.ok with _ | _ <;>
        first
        | (rcases hk1 : r1.ok with _ | _ <;>
            first
            | (rcases hk2 : r2.ok with _ | _ <;>
                simp_all [fetchWithRetry1, FetchOutcome.isFailure, FetchOutcome.errMsg])
            | simp_all [fetchWithRetry1, FetchOutcome.isFailure, FetchOutcome.errMsg])
        | (first
            | (rcases hk2 : r2.ok with _ | _ <;>
                simp_all [fetchWithRetry1, FetchOutcome.isFailure, FetchOutcome.errMsg])
            | simp_all [fetchWithRetry1, FetchOutcome.isFailure, FetchOutcome.errMsg]))
    | (first
        | (rcases hk1 : r1.ok with _ | _ <;>
            first
            | (rcases hk2 : r2.ok with _ | _ <;>
                simp_all [fetchWithRetry1, FetchOutcome.isFailure, FetchOutcome.errMsg])
            | simp_all [fetchWithRetry1, FetchOutcome.isFailure, FetchOutcome.errMsg])
        | (first
            | (rcases hk2 : r2.ok with _ | _ <;>
                simp_all [fetchWithRetry1, FetchOutcome.isFailure, FetchOutcome.errMsg])
            | simp_all [fetchWithRetry1, FetchOutcome.isFailure, FetchOutcome.errMsg]))

/-- C2 witness: two rejections then an ok response, `retries = 3`,
backoff 300: the successful response is returned after exactly 3
attempts with delays 300 then 600. -/
theorem fetchWithRetry1_retries3_spec_witness :
    fetchWithRetry1
        (fun k => if k < 2 then .reject "boom" else .resolved ⟨true, 200, "OK", none⟩)
        0 3 300
      = ⟨3, [300, 300 * 2], .ok ⟨true, 200, "OK", none⟩⟩ :=
  (fetchWithRetry1_retries3_spec
      (fun k => if k < 2 then .reject "boom" else .resolved ⟨true, 200, "OK", none⟩)
      300).2.2.1 ⟨true, 200, "OK", none⟩ rfl rfl rfl rfl

/-- C4 counterexample: the key concatenates roster ids in roster order,
not sorted: two rosters with the same sorted id sequence (hence the same
"sorted/concatenated identities") produce different keys, so the key is
not derived from the sorted identities. -/
theorem cacheKey_not_function_of_sorted_ids :
    cacheKey ⟨"c", "C", none⟩ (some "mid")
        [⟨"a", "A", none⟩, ⟨"b", "B", none⟩] [⟨"e", "E", none⟩] ≠
      cacheKey ⟨"c", "C", none⟩ (some "mid")
        [⟨"b", "B", none⟩, ⟨"a", "A", none⟩] [⟨"e", "E", none⟩] ∧
    sortedIds [⟨"a", "A", none⟩, ⟨"b", "B", none⟩] =
      sortedIds [⟨"b", "B", none⟩, ⟨"a", "A", none⟩] := by
  constructor
  · decide
  · decide

/-- C4 (amended): the cache key is a deterministic string derived from
the champion id, the role, and the roster ids concatenated in roster
order (not sorted), and it is sensitive to roster membership: two
requests agreeing on champion, role and roster lengths but differing in
exactly one roster member's id get different keys. -/
theorem cacheKey_one_member_change (pc : ClientChampion) (role : Option String) :
    (∀ (pre suf enemies : List ClientChampion) (x y : ClientChampion), x.id ≠ y.id →
      cacheKey pc role (pre ++ x :: suf) enemies ≠
        cacheKey pc role (pre ++ y :: suf) enemies) ∧
    (∀ (allies pre suf : List ClientChampion) (x y : ClientChampion), x.id ≠ y.id →
      cacheKey pc role allies (pre ++ x :: suf) ≠
        cacheKey pc role allies (pre ++ y :: suf)) := by
  constructor
  · intro pre suf enemies x y hxy heq
    simp only [cacheKey] at heq
    have h1 := str_append_right_cancel (str_append_right_cancel heq)
    have h2 := str_append_left_cancel h1
    rw [List.map_append, List.map_append, List.map_cons, List.map_cons] at h2
    exact joinU_changed_ne x.id y.id hxy _ _ h2
  · intro allies pre suf x y hxy heq
    simp only [cacheKey] at heq
    have h1 := str_append_left_cancel heq
    rw [List.map_append, List.map_append, List.map_cons, List.map_cons] at h1
    exact joinU_changed_ne x.id y.id hxy _ _ h1

/-- C4 witness: swapping one ally id (`b` to `x`) changes the key. -/
theorem cacheKey_one_member_change_witness :
    cacheKey ⟨"c", "C", none⟩ (some "mid")
        ([⟨"a", "A", none⟩] ++ ⟨"b", "B", none⟩ :: []) [⟨"e", "E", none⟩] ≠
      cacheKey ⟨"c", "C", none⟩ (some "mid")
        ([⟨"a", "A", none⟩] ++ ⟨"x", "X", none⟩ :: []) [⟨"e", "E", none⟩] :=
  (cacheKey_one_member_change ⟨"c", "C", none⟩ (some "mid")).1
    [⟨"a", "A", none⟩] [] [⟨"e", "E", none⟩] ⟨"b", "B", none⟩ ⟨"x", "X", none⟩
    (by decide)

/-- C3 counterexample: an orchestration failure whose message contains
`"rate limit"` (singular) but not `"rate limits"` is mapped to 500, not
429 — the handler tests for the plural substring `'rate limits'`. -/
theorem mapError_rate_limit_singular_not_429 :
    jsIncludes "hit the rate limit." "rate limit" = true ∧
    jsIncludes "hit the rate limit." "timeout" = false ∧
    (mapErrorToResponse false ⟨"hit the rate limit.", none⟩).statusCode = 500 ∧
    (mapErrorToResponse false ⟨"hit the rate limit.", none⟩).statusCode ≠ 429 := by
  refine ⟨by decide, by decide, by decide, by decide⟩

/-- C3 (amended): a failure whose message contains `"timeout"` yields
504; one containing `"rate limits"` (the plural substring the code
tests) and not `"timeout"` yields 429; a request missing allies, enemies
or playerChampion yields 400 with a details map naming exactly the
missing fields; any other failure (no `status` property on the error)
yields 500 with a generic message. -/
theorem errorMapping_spec (isDev : Bool) (e : JsError) :
    (jsIncludes e.message "timeout" = true →
      (mapErrorToResponse isDev e).statusCode = 504) ∧
    (jsIncludes e.message "timeout" = false →
      jsIncludes e.message "rate limits" = true →
      (mapErrorToResponse isDev e).statusCode = 429) ∧
    (jsIncludes e.message "timeout" = false →
      jsIncludes e.message "rate limits" = false → e.status = none →
      mapErrorToResponse isDev e =
        .errorJson 500 "Failed to generate build recommendation"
          (if isDev then some e.message else none)) ∧
    (∀ (openaiInit : Bool) (orc : Nat → OrcAttempt) (parse : String → Option JsVal)
        (now : Nat) (st : ServerCache) (req : ReqBody),
      ((req.allies.getD []).length = 0 ∨ (req.enemies.getD []).length = 0 ∨
          req.playerChampion = none) →
      (handleBuildRecommendation isDev openaiInit orc parse now st req).response =
        .badRequest "Missing required data"
          ⟨if (req.allies.getD []).length = 0 then some "Missing allies" else none,
           if (req.enemies.getD []).length = 0 then some "Missing enemies" else none,
           if req.playerChampion.isNone then some "Missing player champion" else none⟩) := by
  refine ⟨?_, ?_, ?_, ?_⟩
  · intro ht
    simp [mapErrorToResponse, ht, SrvResponse.statusCode]
  · intro ht hr
    simp [mapErrorToResponse, ht, hr, SrvResponse.statusCode]
  · intro ht hr hs
    simp [mapErrorToResponse, ht, hr, errStatusOr500, hs]
  · intro openaiInit orc parse now st req hmiss
    match hpc : req.playerChampion with
    | none =>
      simp [handleBuildRecommendation, hpc]
    | some pc =>
      have hae : (req.allies.getD []).length = 0 ∨ (req.enemies.getD []).length = 0 := by
        rcases hmiss with h | h | h
        · exact Or.inl h
        · exact Or.inr h
        · rw [hpc] at h; cases h
      rcases hae with h | h
      · simp [handleBuildRecommendation, hpc, h]
      · simp [handleBuildRecommendation, hpc, h]

/-- C3 witness: a gateway-timeout message maps to 504, and a request
missing only its player champion gets the 400 details map naming that
field. -/
theorem errorMapping_spec_witness :
    (mapErrorToResponse true ⟨"Gateway timeout", none⟩).statusCode = 504 ∧
    (handleBuildRecommendation true true (fun _ => .timeout) (fun _ => none) 0 []
        ⟨some [⟨"a", "A", none⟩], some [⟨"e", "E", none⟩], none, none, "p"⟩).response =
      .badRequest "Missing required data" ⟨none, none, some "Missing player champion"⟩ :=
  ⟨(errorMapping_spec true ⟨"Gateway timeout", none⟩).1 (by decide),
   (errorMapping_spec true ⟨"Gateway timeout", none⟩).2.2.2 true (fun _ => .timeout)
     (fun _ => none) 0 []
     ⟨some [⟨"a", "A", none⟩], some [⟨"e", "E", none⟩], none, none, "p"⟩
     (Or.inr (Or.inr rfl))⟩

/-- C7: when the player champion is unset, or either roster is missing
or empty, `generateBuildRecommendation` throws its descriptive validation
error with zero fetch attempts issued. -/
theorem generate_validates_before_fetch (rnd : Nat → String)
    (healthOracle buildOracle : Nat → FetchOutcome)
    (allies enemies : Option (List ClientChampion)) (playerRole : Option String) :
    (generateBuildRecommendation rnd healthOracle buildOracle allies enemies
        none playerRole = ⟨0, .error "Please select your champion first"⟩) ∧
    (∀ pc, (allies.getD []).length = 0 ∨ (enemies.getD []).length = 0 →
      generateBuildRecommendation rnd healthOracle buildOracle allies enemies
        (some pc) playerRole = ⟨0, .error "Please add champions to both teams"⟩) := by
  constructor
  · rfl
  · intro pc h
    rcases h with h | h
    · simp [generateBuildRecommendation, h]
    · simp [generateBuildRecommendation, h]

/-- C7 witness: an unset champion, and an empty ally roster with a set
champion, both fail with zero fetches. -/
theorem generate_validates_before_fetch_witness :
    (generateBuildRecommendation (fun _ => "r") (fun _ => .reject "x")
        (fun _ => .reject "x") (some []) (some [⟨"e", "E", none⟩]) none none =
      ⟨0, .error "Please select your champion first"⟩) ∧
    (generateBuildRecommendation (fun _ => "r") (fun _ => .reject "x")
        (fun _ => .reject "x") (some []) (some [⟨"e", "E", none⟩])
        (some ⟨"a", "A", none⟩) none =
      ⟨0, .error "Please add champions to both teams"⟩) :=
  ⟨(generate_validates_before_fetch (fun _ => "r") (fun _ => .reject "x")
      (fun _ => .reject "x") (some []) (some [⟨"e", "E", none⟩]) none).1,
   (generate_validates_before_fetch (fun _ => "r") (fun _ => .reject "x")
      (fun _ => .reject "x") (some []) (some [⟨"e", "E", none⟩]) none).2
     ⟨"a", "A", none⟩ (Or.inl rfl)⟩

/-- C1 counterexample: the normalizer is not total on malformed optional
fields: a response whose `items` array holds a record without a string
`name` makes `transformItemsData` throw
(`item.name.toLowerCase()` at `openaiApi.ts` line 54). -/
theorem normalizeV1_throws_on_malformed_item :
    normalizeV1 (fun _ => "r") (.obj [("items", .arr [.obj []])])
        ⟨"1", "Ahri", none⟩ none
      = .error "TypeError: item.name.toLowerCase is not a function" := by
  rfl

/-- C1 (amended): the normalizer never throws when the optional fields
are absent — in particular a response lacking `items`, `runes` and the
strategy/analysis/build-order fields entirely yields a
BuildRecommendation with `items = []` and `runes = []` and no exception
(though it can throw on malformed fields that are present). -/
theorem normalizeV1_defaults_on_missing_fields (rnd : Nat → String)
    (pc : ClientChampion) (role : Option String) (data : JsVal)
    (hnn : data.isNullish = false)
    (hItems : data.prop "items" = .undefined)
    (hRunes : data.prop "runes" = .undefined)
    (hTA : data.prop "team_analysis" = .undefined)
    (hStrat : data.prop "strategy" = .undefined)
    (hBO : data.prop "build_order" = .undefined) :
    Except.map (fun rec => (rec.items, rec.runes)) (normalizeV1 rnd data pc role)
      = .ok ([], []) := by
  have hlines : strategyLinesV1 data = strategyLinesV1 (JsVal.obj []) := by
    unfold strategyLinesV1
    rw [hTA, hStrat, hBO, hnn]
    rfl
  have htext : strategyTextV1 data = strategyTextV1 (JsVal.obj []) := by
    unfold strategyTextV1
    rw [hlines]
  have hmain : normalizeV1 rnd data pc role = normalizeV1 rnd (JsVal.obj []) pc role := by
    unfold normalizeV1
    rw [htext, hItems, hRunes]
    rfl
  rw [hmain]
  rfl

/-- C1 witness: the amended theorem at a response carrying none of the
recognized fields. -/
theorem normalizeV1_defaults_witness :
    Except.map (fun rec => (rec.items, rec.runes))
        (normalizeV1 (fun _ => "r") (.obj [("other", .str "x")])
          ⟨"1", "Ahri", none⟩ none)
      = .ok ([], []) :=
  normalizeV1_defaults_on_missing_fields (fun _ => "r") ⟨"1", "Ahri", none⟩ none
    (.obj [("other", .str "x")]) rfl rfl rfl rfl rfl rfl

/-- C6 counterexample: in the `strategyText` of `openaiApi.ts` lines
255-311, the ally-strengths heading is an unconditional array entry, so
for a response with `team_analysis.ally_strengths` absent and
`enemy_threats` present the assembled explanation still contains the
ally-strengths heading (while also containing the threat text). -/
theorem strategyTextV1_always_emits_ally_heading :
    explanationContains
        (strategyTextV1 (.obj [("team_analysis",
          .obj [("enemy_threats", .arr [.str "Fed assassin"])])]))
        "Allied Team Strengths:" = true ∧
    explanationContains
        (strategyTextV1 (.obj [("team_analysis",
          .obj [("enemy_threats", .arr [.str "Fed assassin"])])]))
        "Fed assassin" = true := by
  exact ⟨rfl, rfl⟩

/-- C6 (amended): in the `strategyText` of `openaiApi.ts` lines 952-975
(where subsection headings are conditional), a response with
`ally_strengths` absent and `enemy_threats` a non-empty string list
yields an explanation whose entry list carries the enemy-threats heading
(and it survives the truthiness filter into the joined text) and one
bullet per threat, and carries no ally-strengths heading; the entries
are joined in the fixed source order.  In the lines-255-311 variant the
subsection headings, including ally strengths, are emitted
unconditionally. -/
theorem strategyTextV4_threat_section (ts : List String) (h : ts ≠ []) :
    ∃ L, strategyLinesV4 (JsVal.obj [("team_analysis",
          JsVal.obj [("enemy_threats", JsVal.arr (ts.map JsVal.str))])]) = .ok L ∧
      JsVal.str "\nEnemy Threats:" ∈ L ∧
      JsVal.str "\nEnemy Threats:" ∈ L.filter JsVal.truthy ∧
      (∀ t ∈ ts, JsVal.str ("‚Ä¢ " ++ t) ∈ L) ∧
      JsVal.str "Allied Strengths:" ∉ L ∧
      strategyTextV4 (JsVal.obj [("team_analysis",
          JsVal.obj [("enemy_threats", JsVal.arr (ts.map JsVal.str))])])
        = .ok (filterJoin L) := by
  have hcond : jsGtZero (jsOptLength (JsVal.arr (ts.map JsVal.str))) = true := by
    have hpos : 0 < ts.length := List.length_pos.mpr h
    simp only [jsOptLength, jsGtZero, List.length_map]
    simpa using hpos
  have hif : (if jsGtZero (jsOptLength (JsVal.arr (ts.map JsVal.str))) = true then
      JsVal.str "\nEnemy Threats:" else JsVal.str "") = JsVal.str "\nEnemy Threats:" := by
    simp [hcond]
  have hstep : strategyLinesV4 (JsVal.obj [("team_analysis",
        JsVal.obj [("enemy_threats", JsVal.arr (ts.map JsVal.str))])])
      = .ok (JsVal.str "üìä Team Analysis:" :: JsVal.str "" ::
          (if jsGtZero (jsOptLength (JsVal.arr (ts.map JsVal.str))) = true then
            JsVal.str "\nEnemy Threats:" else JsVal.str "") ::
          ((((ts.map JsVal.str).map (fun x => JsVal.str ("‚Ä¢ " ++ jsString x)) ++
              [JsVal.str "\nDamage Profile:", JsVal.str "", JsVal.str "",
               JsVal.str "\nüåÖ Early Game:", JsVal.str "", JsVal.str "", JsVal.str ""])
            ++ []) ++
            [JsVal.str "\nüå§Ô∏è Mid Game:", JsVal.str "", JsVal.str "",
             JsVal.str "\nüåï Late Game:", JsVal.str "", JsVal.str ""])) := rfl
  rw [hif, List.map_map] at hstep
  simp only [List.append_nil, List.append_assoc] at hstep
  refine ⟨_, hstep, ?_, ?_, ?_, ?_, ?_⟩
  · simp
  · refine List.mem_filter.mpr ⟨by simp, rfl⟩
  · intro t ht
    simp only [List.mem_cons, List.mem_append, List.mem_map, Function.comp]
    refine Or.inr (Or.inr (Or.inr (Or.inl ⟨t, ht, rfl⟩)))
  · intro hmem
    simp only [List.mem_cons, List.mem_append, List.mem_map, Function.comp,
      JsVal.str.injEq] at hmem
    rcases hmem with h1 | h1 | h1 | h1 | h1 | h1
    · exact absurd h1 (by decide)
    · exact absurd h1 (by decide)
    · exact absurd h1 (by decide)
    · rcases h1 with ⟨t, _, h1⟩
      exact bullet_ne_ally_heading t h1
    · simp at h1
    · simp at h1
  · unfold strategyTextV4
    rw [hstep]
    rfl

/-- C6 witness: the amended theorem at a single threat entry. -/
theorem strategyTextV4_threat_section_witness :
    ∃ L, strategyLinesV4 (JsVal.obj [("team_analysis",
          JsVal.obj [("enemy_threats",
            JsVal.arr (["Fed assassin"].map JsVal.str))])]) = .ok L ∧
      JsVal.str "\nEnemy Threats:" ∈ L ∧
      JsVal.str "\nEnemy Threats:" ∈ L.filter JsVal.truthy ∧
      (∀ t ∈ ["Fed assassin"], JsVal.str ("‚Ä¢ " ++ t) ∈ L) ∧
      JsVal.str "Allied Strengths:" ∉ L ∧
      strategyTextV4 (JsVal.obj [("team_analysis",
          JsVal.obj [("enemy_threats",
            JsVal.arr (["Fed assassin"].map JsVal.str))])])
        = .ok (filterJoin L) :=
  strategyTextV4_threat_section ["Fed assassin"] (by decide)

/-- C5: a valid request that misses the cache issues exactly one
upstream completion attempt (the attempt succeeding immediately), stores
the recommendation under the one-hour TTL (3600 s), and an identical
request arriving before the entry expires issues zero upstream calls and
returns the same cached payload with the cache unchanged — one upstream
call for the pair. -/
theorem cache_pair_single_upstream_call
    (isDev : Bool) (orc : Nat → OrcAttempt) (parse : String → Option JsVal)
    (t0 t1 : Nat) (st0 : ServerCache) (req : ReqBody)
    (allies enemies : List ClientChampion) (pc : ClientChampion)
    (completion : JsVal) (rec : SrvRecommendation)
    (hA : req.allies = some allies) (hAne : allies ≠ [])
    (hE : req.enemies = some enemies) (hEne : enemies ≠ [])
    (hP : req.playerChampion = some pc)
    (hmiss : cacheGet st0 (cacheKey pc req.playerRole allies enemies) t0 = none)
    (horc : orc 0 = .ok completion)
    (hbuild : buildRecommendationFromCompletion parse pc req.playerRole completion
      = .ok rec)
    (httl : t1 < t0 + 3600) :
    handleBuildRecommendation isDev true orc parse t0 st0 req =
      ⟨.okJson rec,
       (cacheKey pc req.playerRole allies enemies, ⟨rec, t0 + 3600⟩) :: st0, 1⟩ ∧
    ∀ (orc2 : Nat → OrcAttempt) (parse2 : String → Option JsVal),
      handleBuildRecommendation isDev true orc2 parse2 t1
          ((cacheKey pc req.playerRole allies enemies, ⟨rec, t0 + 3600⟩) :: st0) req =
        ⟨.okJson rec,
         (cacheKey pc req.playerRole allies enemies, ⟨rec, t0 + 3600⟩) :: st0, 0⟩ := by
  constructor
  · simp [handleBuildRecommendation, hP, hA, hE, hAne, hEne, hmiss, runWithRetries,
      horc, hbuild, cacheSet]
  · intro orc2 parse2
    have hget : cacheGet
        ((cacheKey pc req.playerRole allies enemies, ⟨rec, t0 + 3600⟩) :: st0)
        (cacheKey pc req.playerRole allies enemies) t1 = some rec := by
      unfold cacheGet
      rw [List.find?_cons_of_pos]
      · simp [httl]
      · simp
    simp [handleBuildRecommendation, hP, hA, hE, hAne, hEne, hget]

/-- C5 witness: a concrete champion/roster pair, a completion that
returns `{}`, and a second identical request 100 s later. -/
theorem cache_pair_single_upstream_call_witness :
    handleBuildRecommendation true true
        (fun _ => .ok (.obj [("choices",
          .arr [.obj [("message", .obj [("content", .str "\x7b\x7d")])]])]))
        (fun s => if s = "\x7b\x7d" then some (.obj []) else none) 0 []
        ⟨some [⟨"a1", "Ahri", none⟩], some [⟨"z1", "Zed", none⟩],
         some ⟨"a1", "Ahri", none⟩, some "mid", "p"⟩ =
      ⟨.okJson ⟨.arr [], .obj [], .obj [], .obj [], .obj [],
          ⟨"a1", "Ahri", none⟩, some "mid"⟩,
       (cacheKey ⟨"a1", "Ahri", none⟩ (some "mid")
          [⟨"a1", "Ahri", none⟩] [⟨"z1", "Zed", none⟩],
        ⟨⟨.arr [], .obj [], .obj [], .obj [], .obj [],
          ⟨"a1", "Ahri", none⟩, some "mid"⟩, 0 + 3600⟩) :: [], 1⟩ ∧
    ∀ (orc2 : Nat → OrcAttempt) (parse2 : String → Option JsVal),
      handleBuildRecommendation true true orc2 parse2 100
          ((cacheKey ⟨"a1", "Ahri", none⟩ (some "mid")
              [⟨"a1", "Ahri", none⟩] [⟨"z1", "Zed", none⟩],
            ⟨⟨.arr [], .obj [], .obj [], .obj [], .obj [],
              ⟨"a1", "Ahri", none⟩, some "mid"⟩, 0 + 3600⟩) :: [])
          ⟨some [⟨"a1", "Ahri", none⟩], some [⟨"z1", "Zed", none⟩],
           some ⟨"a1", "Ahri", none⟩, some "mid", "p"⟩ =
        ⟨.okJson ⟨.arr [], .obj [], .obj [], .obj [], .obj [],
            ⟨"a1", "Ahri", none⟩, some "mid"⟩,
         (cacheKey ⟨"a1", "Ahri", none⟩ (some "mid")
            [⟨"a1", "Ahri", none⟩] [⟨"z1", "Zed", none⟩],
          ⟨⟨.arr [], .obj [], .obj [], .obj [], .obj [],
            ⟨"a1", "Ahri", none⟩, some "mid"⟩, 0 + 3600⟩) :: [], 0⟩ :=
  cache_pair_single_upstream_call true
    (fun _ => .ok (.obj [("choices",
      .arr [.obj [("message", .obj [("content", .str "\x7b\x7d")])]])]))
    (fun s => if s = "\x7b\x7d" then some (.obj []) else none) 0 100 []
    ⟨some [⟨"a1", "Ahri", none⟩], some [⟨"z1", "Zed", none⟩],
     some ⟨"a1", "Ahri", none⟩, some "mid", "p"⟩
    [⟨"a1", "Ahri", none⟩] [⟨"z1", "Zed", none⟩] ⟨"a1", "Ahri", none⟩
    (.obj [("choices", .arr [.obj [("message", .obj [("content", .str "\x7b\x7d")])]])])
    ⟨.arr [], .obj [], .obj [], .obj [], .obj [], ⟨"a1", "Ahri", none⟩, some "mid"⟩
    rfl (by decide) rfl (by decide) rfl rfl rfl rfl (by decide)

end CntBuild
